import Mathlib

/-!
Verification development for the cap-table tie-out application
(`src/main.py`, class `DeterministicCapTableAnalyzer`).

The Python code is shallowly embedded: numeric cell values (Python floats)
are modelled as exact fractions (`Frac`), spreadsheet cells as `CellValue`,
the loosely-typed grant dictionaries produced by the extractors as `Grant`
(every key the analysis reads is present, optional values model `None`),
and exceptions as `Except String`.  Pure functions of the source keep their
Python names where possible.
-/

namespace CapTableApp

/-- Exact rational value standing in for a Python float.  `den` is positive
in every value the embedding constructs.  All arithmetic on `Frac` is the
exact arithmetic of the underlying rational; binary floating-point rounding
of the source is idealised away. -/
structure Frac where
  num : Int
  den : Nat := 1
deriving DecidableEq, Inhabited

/-- The fraction `n / 1`. -/
def Frac.ofInt (n : Int) : Frac := { num := n, den := 1 }

/-- Exact difference `a - b` (cross multiplication, no normalisation). -/
def Frac.sub (a b : Frac) : Frac :=
  { num := a.num * (b.den : Int) - b.num * (a.den : Int), den := a.den * b.den }

/-- Model of Python `abs` on a float value. -/
def Frac.fabs (a : Frac) : Frac :=
  { num := if a.num < 0 then -a.num else a.num, den := a.den }

/-- Strict comparison `a < b`, valid because constructed denominators are
positive. -/
def Frac.blt (a b : Frac) : Bool :=
  a.num * (b.den : Int) < b.num * (a.den : Int)

/-- Division of a float value by a positive integer `n`
(used for `cost_basis / shares` which the source guards by `shares > 0`). -/
def Frac.divByPos (a : Frac) (n : Int) : Frac :=
  { num := a.num, den := a.den * n.natAbs }

/-- Truncation toward zero: the model of Python `int(...)` applied to a
float value. -/
def Frac.trunc (a : Frac) : Int :=
  if 0 ≤ a.num then (a.num.natAbs / a.den : Nat) else -((a.num.natAbs / a.den : Nat) : Int)

/-- The literal `0.01` of the price-tolerance comparison. -/
def hundredth : Frac := { num := 1, den := 100 }

/-- A spreadsheet cell as `excel_to_structured_data` stores it into an entry
dictionary: a string, a numeric value, or a missing/NaN value (`pd.isna`). -/
inductive CellValue where
  | str (s : String)
  | num (q : Frac)
  | na
deriving DecidableEq, Inhabited

/-- Numeric value of a list of decimal digit characters. -/
def digitsVal (cs : List Char) : Nat :=
  cs.foldl (fun a c => a * 10 + (c.toNat - 48)) 0

/-- Parse an unsigned decimal numeral (digits with at most one point),
the fragment of Python `float(...)` string parsing exercised here. -/
def parseUnsigned (cs : List Char) : Option Frac :=
  let ip := cs.takeWhile Char.isDigit
  let rest := cs.dropWhile Char.isDigit
  match rest with
  | [] =>
    if ip.isEmpty then none else some { num := (digitsVal ip : Int), den := 1 }
  | '.' :: fp =>
    if fp.all Char.isDigit && !(ip.isEmpty && fp.isEmpty) then
      some { num := (digitsVal ip * 10 ^ fp.length + digitsVal fp : Nat), den := 10 ^ fp.length }
    else none
  | _ => none

/-- Model of Python `float(s)` on a string: strip surrounding whitespace,
optional sign, plain decimal numeral; anything else raises `ValueError`
(`none`).  Exponents and special values are not exercised by the data the
application reads and are treated as unparsable. -/
def parseFloatLit (s : String) : Option Frac :=
  match s.trim.toList with
  | '+' :: cs => parseUnsigned cs
  | '-' :: cs => (parseUnsigned cs).map (fun f => { f with num := -f.num })
  | cs => parseUnsigned cs

/-- `DeterministicCapTableAnalyzer.safe_int` (src/main.py lines 340-347):
`0` for NaN/missing, otherwise `int(float(value))`, and `0` when the
conversion raises. -/
def safe_int (v : CellValue) : Int :=
  match v with
  | .na => 0
  | .num q => q.trunc
  | .str s =>
    match parseFloatLit s with
    | some q => q.trunc
    | none => 0

/-- `DeterministicCapTableAnalyzer.safe_float` (src/main.py lines 349-356). -/
def safe_float (v : CellValue) : Frac :=
  match v with
  | .na => Frac.ofInt 0
  | .num q => q
  | .str s => (parseFloatLit s).getD (Frac.ofInt 0)

/-- Model of Python `str(...)` applied to a cell value.  Rendering of
numeric and missing cells is a stand-in (no analysed claim depends on it);
strings are returned unchanged, as in the source. -/
def strOfCell : CellValue → String
  | .str s => s
  | .num q => toString q.num ++ "/" ++ toString q.den
  | .na => "nan"

/-- Model of the Python substring test `needle in hay`. -/
def containsSub (hay needle : String) : Bool :=
  (List.range (hay.toList.length + 1)).any
    (fun i => needle.toList.isPrefixOf (hay.toList.drop i))

/-- A grant record as built by `extract_rsa_grant` / `extract_option_grant`
/ `extract_repurchase_info`: every key the analysis reads is present and
optional values model Python `None`. -/
structure Grant where
  type : String
  filename : String
  stockholder : Option String := none
  shares : Option Int := none
  price_per_share : Option Frac := none
  date : Option String := none
  vesting_start : Option String := none
  vesting_schedule : Option String := none
  shares_repurchased : Option Int := none
deriving DecidableEq, Inhabited

/-- A cap-table entry restricted to the keys `run_deterministic_analysis`
reads; each field holds the value `entry.get(key, default)` returns, so an
absent key is identified with the corresponding `.get` default. -/
structure Entry where
  securityID : CellValue := CellValue.str ""
  stakeholderName : CellValue := CellValue.str ""
  quantityIssued : CellValue := CellValue.num (Frac.ofInt 0)
  costBasis : CellValue := CellValue.num (Frac.ofInt 0)
  boardApprovalDate : CellValue := CellValue.str ""
  vestingSchedule : CellValue := CellValue.str ""
deriving DecidableEq, Inhabited

/-- One discrepancy dictionary, before its `number` field is assigned. -/
structure Payload where
  severity : String
  stockholder : CellValue
  security_id : CellValue
  issue : String
  cap_table_value : String
  legal_value : String
  descr : String
  source : String
deriving DecidableEq, Inhabited

/-- A numbered discrepancy dictionary as appended to `discrepancies`. -/
structure Disc where
  number : Nat
  severity : String
  stockholder : CellValue
  security_id : CellValue
  issue : String
  cap_table_value : String
  legal_value : String
  descr : String
  source : String
deriving DecidableEq, Inhabited

/-- Attach a `number` to a payload. -/
def Payload.numbered (p : Payload) (n : Nat) : Disc :=
  { number := n, severity := p.severity, stockholder := p.stockholder,
    security_id := p.security_id, issue := p.issue,
    cap_table_value := p.cap_table_value, legal_value := p.legal_value,
    descr := p.descr, source := p.source }

/-- Forget the `number` of a discrepancy. -/
def Disc.payload (d : Disc) : Payload :=
  { severity := d.severity, stockholder := d.stockholder,
    security_id := d.security_id, issue := d.issue,
    cap_table_value := d.cap_table_value, legal_value := d.legal_value,
    descr := d.descr, source := d.source }

def repurchaseType : String := "Repurchase"

def issuePhantom : String := "Phantom Equity Entry"

def issueShareQty : String := "Incorrect Share Quantity"

def issuePrice : String := "Incorrect Price Per Share"

def issueDate : String := "Incorrect Board Approval Date"

def issueVesting : String := "Vesting Schedule Mismatch"

def issueRepurchase : String := "Missing Repurchase Transaction"

def sevHigh : String := "HIGH"

def typeErrorMsg : String := "TypeError: unsupported operand type for -"

/-- The grants stored under key `name` in `board_lookup`
(src/main.py lines 207-219): non-repurchase grants whose truthy
`stockholder` equals `name`, in input order.  A grant with stockholder
`None` or `''` is never added, so `name = ''` has no bucket. -/
def grantsFor (grants : List Grant) (name : String) : List Grant :=
  grants.filter (fun g => decide (g.type ≠ repurchaseType ∧ g.stockholder = some name))

/-- `stockholder not in board_lookup` negated: the entry's raw
`'Stakeholder Name'` value is a key of `board_lookup`.  Only a non-empty
string can be a key; a numeric or missing cell never equals one. -/
def inLookup (grants : List Grant) : CellValue → Bool
  | CellValue.str s => s != "" && !(grantsFor grants s).isEmpty
  | _ => false

/-- The repurchase branch of the grant partition
(src/main.py lines 211-213). -/
def repurchasesOf (grants : List Grant) : List Grant :=
  grants.filter (fun g => g.type == repurchaseType)

/-- The matching loop of src/main.py lines 249-253: first grant `g` with
`g.get('shares') == shares or abs(g.get('shares', 0) - shares) <= 1`.
When `g['shares']` is `None` the first disjunct is false and the second
raises `TypeError` (`None - int`), which the embedding surfaces as
`Except.error`. -/
def findMatching (sh : Int) : List Grant → Except String (Option Grant)
  | [] => Except.ok none
  | g :: rest =>
    match g.shares with
    | some n =>
      if n = sh ∨ (n - sh).natAbs ≤ 1 then Except.ok (some g) else findMatching sh rest
    | none => Except.error typeErrorMsg

/-- The matched grant of an entry: the matching loop's result, falling back
to `board_lookup[stockholder][0]` (src/main.py lines 255-256).  The
`headD default` is never the `default` when `gs` is a non-empty bucket. -/
def matchedGrant (gs : List Grant) (sh : Int) : Except String Grant :=
  (findMatching sh gs).map (fun o => o.getD (gs.headD default))

/-- The matched grant of an entry inside `run_deterministic_analysis`,
as a function of the raw inputs. -/
def matchedGrantOf (grants : List Grant) (e : Entry) : Except String Grant :=
  match e.stakeholderName with
  | CellValue.str s => matchedGrant (grantsFor grants s) (safe_int e.quantityIssued)
  | _ => Except.error typeErrorMsg

/-- `price_per_share = cost_basis / shares if shares > 0 else 0`
(src/main.py lines 230-231). -/
def entryPricePerShare (e : Entry) : Frac :=
  let sh := safe_int e.quantityIssued
  if 0 < sh then (safe_float e.costBasis).divByPos sh else Frac.ofInt 0

/-- The Check 1 payload (src/main.py lines 233-246). -/
def phantomPayload (e : Entry) : Payload :=
  { severity := sevHigh, stockholder := e.stakeholderName,
    security_id := e.securityID, issue := issuePhantom,
    cap_table_value := toString (safe_int e.quantityIssued) ++ " shares",
    legal_value := "No supporting documentation found",
    descr := "Cap table shows " ++ strOfCell e.securityID ++ " for "
      ++ strOfCell e.stakeholderName ++ " but no board approval found",
    source := "None found" }

/-- Check 2 (src/main.py lines 258-271): `board_shares` truthy and
`abs(shares - board_shares) > 1`. -/
def shareQtyChecks (e : Entry) (m : Grant) : List Payload :=
  let sh := safe_int e.quantityIssued
  match m.shares with
  | some n =>
    if n ≠ 0 ∧ 1 < (sh - n).natAbs then
      [{ severity := sevHigh, stockholder := e.stakeholderName,
         security_id := e.securityID, issue := issueShareQty,
         cap_table_value := toString sh ++ " shares",
         legal_value := toString n ++ " shares",
         descr := "Cap table shows " ++ toString sh
           ++ " shares but board approval is for " ++ toString n ++ " shares",
         source := m.filename }]
    else []
  | none => []

/-- Stand-in for Python `f'$\x7bx:.2f\x7d'`; no analysed claim depends on
the rendering of a price. -/
def fmtMoney (q : Frac) : String :=
  "$" ++ toString q.num ++ "/" ++ toString q.den

/-- Check 3 (src/main.py lines 273-286): `board_price` truthy and
`abs(price_per_share - board_price) > 0.01`. -/
def priceChecks (e : Entry) (m : Grant) : List Payload :=
  let pps := entryPricePerShare e
  match m.price_per_share with
  | some p =>
    if p.num ≠ 0 ∧ hundredth.blt ((pps.sub p).fabs) then
      [{ severity := sevHigh, stockholder := e.stakeholderName,
         security_id := e.securityID, issue := issuePrice,
         cap_table_value := fmtMoney pps,
         legal_value := fmtMoney p,
         descr := "Cap table shows " ++ fmtMoney pps
           ++ " per share but board approval is for " ++ fmtMoney p ++ " per share",
         source := m.filename }]
    else []
  | none => []

/-- Check 4 (src/main.py lines 288-301): `board_date` truthy and not a
substring of the entry's board-approval-date string. -/
def dateChecks (e : Entry) (m : Grant) : List Payload :=
  let bad := strOfCell e.boardApprovalDate
  match m.date with
  | some d =>
    if d ≠ "" ∧ !(containsSub bad d) then
      [{ severity := sevHigh, stockholder := e.stakeholderName,
         security_id := e.securityID, issue := issueDate,
         cap_table_value := bad, legal_value := d,
         descr := "Board approval date in cap table does not match legal documents",
         source := m.filename }]
    else []
  | none => []

/-- Check 5 (src/main.py lines 303-318): `board_vesting` truthy, not a
substring of the entry's vesting string, and a monthly/annual keyword
mismatch. -/
def vestingChecks (e : Entry) (m : Grant) : List Payload :=
  let vs := strOfCell e.vestingSchedule
  match m.vesting_schedule with
  | some v =>
    if v ≠ "" ∧ !(containsSub vs v)
        ∧ ((containsSub v.toLower "monthly" ∧ !(containsSub vs.toLower "monthly"))
           ∨ (containsSub v.toLower "annual" ∧ !(containsSub vs.toLower "annual"))) then
      [{ severity := sevHigh, stockholder := e.stakeholderName,
         security_id := e.securityID, issue := issueVesting,
         cap_table_value := vs, legal_value := v,
         descr := "Vesting schedule format differs between cap table and board documents",
         source := m.filename }]
    else []
  | none => []

/-- The per-entry body of the `for entry in cap_table_entries` loop
(src/main.py lines 222-318), as the list of discrepancy payloads the entry
contributes: Check 1 with `continue` when the stakeholder has no bucket,
otherwise the matching step followed by Checks 2-5. -/
def entryPayloads (grants : List Grant) (e : Entry) : Except String (List Payload) :=
  match e.stakeholderName with
  | CellValue.str s =>
    if s != "" && !(grantsFor grants s).isEmpty then
      (matchedGrant (grantsFor grants s) (safe_int e.quantityIssued)).map (fun m =>
        shareQtyChecks e m ++ priceChecks e m ++ dateChecks e m ++ vestingChecks e m)
    else Except.ok [phantomPayload e]
  | _ => Except.ok [phantomPayload e]

/-- The Check 6 payload for a repurchase grant `r` with stockholder `s` and
`shares_repurchased` count `n`. -/
def repurchasePayloadFor (r : Grant) (s : String) (n : Int) : Payload :=
  { severity := sevHigh, stockholder := CellValue.str s,
    security_id := CellValue.str "Multiple", issue := issueRepurchase,
    cap_table_value := "No repurchase reflected",
    legal_value := toString n ++ " shares repurchased",
    descr := "Board approved repurchase of " ++ toString n
      ++ " shares from " ++ s
      ++ " but cap table does not reflect this transaction",
    source := r.filename }

/-- Check 6 (src/main.py lines 320-336): one payload per repurchase grant
with truthy `stockholder` and truthy `shares_repurchased`; the cap-table
entries are not consulted. -/
def repurchasePayloads (grants : List Grant) : List Payload :=
  (repurchasesOf grants).filterMap (fun r =>
    match r.stockholder, r.shares_repurchased with
    | some s, some n =>
      if s ≠ "" ∧ n ≠ 0 then some (repurchasePayloadFor r s n) else none
    | _, _ => none)

/-- `discrepancies.append({'number': len(discrepancies) + 1, ...})` for each
payload in turn. -/
def appendNumbered (acc : List Disc) (ps : List Payload) : List Disc :=
  ps.foldl (fun acc p => acc ++ [p.numbered (acc.length + 1)]) acc

/-- The entry loop folded over the accumulated discrepancy list. -/
def processEntries (grants : List Grant) : List Entry → List Disc → Except String (List Disc)
  | [], acc => Except.ok acc
  | e :: rest, acc => do
    let ps ← entryPayloads grants e
    processEntries grants rest (appendNumbered acc ps)

/-- `DeterministicCapTableAnalyzer.run_deterministic_analysis`
(src/main.py lines 203-338): the entry loop (Checks 1-5) followed by the
repurchase loop (Check 6); a `TypeError` raised by the matching loop
propagates as `Except.error`. -/
def run_deterministic_analysis (cap_table_entries : List Entry)
    (board_grants : List Grant) : Except String (List Disc) := do
  let ds ← processEntries board_grants cap_table_entries []
  pure (appendNumbered ds (repurchasePayloads board_grants))

@[simp] theorem Payload.numbered_issue (p : Payload) (n : Nat) :
    (p.numbered n).issue = p.issue := rfl

@[simp] theorem Payload.numbered_number (p : Payload) (n : Nat) :
    (p.numbered n).number = n := rfl

@[simp] theorem Payload.numbered_payload (p : Payload) (n : Nat) :
    (p.numbered n).payload = p := rfl

theorem appendNumbered_nil (acc : List Disc) : appendNumbered acc [] = acc := rfl

theorem appendNumbered_cons (acc : List Disc) (p : Payload) (ps : List Payload) :
    appendNumbered acc (p :: ps)
      = appendNumbered (acc ++ [p.numbered (acc.length + 1)]) ps := rfl

theorem appendNumbered_map_issue (ps : List Payload) (acc : List Disc) :
    (appendNumbered acc ps).map Disc.issue
      = acc.map Disc.issue ++ ps.map Payload.issue := by
  induction ps generalizing acc with
  | nil => simp [appendNumbered_nil]
  | cons p ps ih =>
    rw [appendNumbered_cons, ih]
    simp

theorem mem_acc_appendNumbered {acc : List Disc} {d : Disc} (hd : d ∈ acc)
    (ps : List Payload) : d ∈ appendNumbered acc ps := by
  induction ps generalizing acc with
  | nil => exact hd
  | cons p ps ih =>
    rw [appendNumbered_cons]
    exact ih (List.mem_append_left _ hd)

theorem exists_mem_appendNumbered {ps : List Payload} {p : Payload} (hp : p ∈ ps)
    (acc : List Disc) : ∃ d ∈ appendNumbered acc ps, d.payload = p := by
  induction ps generalizing acc with
  | nil => cases hp
  | cons q qs ih =>
    rw [appendNumbered_cons]
    rcases List.mem_cons.mp hp with rfl | hp
    · refine ⟨p.numbered (acc.length + 1), ?_, rfl⟩
      exact mem_acc_appendNumbered (by simp) qs
    · exact ih hp _

theorem processEntries_singleton (grants : List Grant) (e : Entry) :
    processEntries grants [e] []
      = (entryPayloads grants e).map (fun ps => appendNumbered [] ps) := by
  cases h : entryPayloads grants e with
  | error msg => simp [processEntries, h, Except.map, Bind.bind, Except.bind]
  | ok ps => simp [processEntries, h, Except.map, Bind.bind, Except.bind]

theorem run_eq_map (entries : List Entry) (grants : List Grant) :
    run_deterministic_analysis entries grants
      = (processEntries grants entries []).map
          (fun base => appendNumbered base (repurchasePayloads grants)) := by
  cases h : processEntries grants entries [] with
  | error msg =>
    simp [run_deterministic_analysis, h, Except.map, Bind.bind, Except.bind]
  | ok base =>
    simp [run_deterministic_analysis, h, Except.map, Bind.bind, Except.bind, pure, Except.pure]

theorem exists_issue_iff_mem_map (ds : List Disc) (i : String) :
    (∃ d ∈ ds, d.issue = i) ↔ i ∈ ds.map Disc.issue := by
  simp [List.mem_map]

theorem mem_repurchasePayloads_issue {grants : List Grant} {p : Payload}
    (hp : p ∈ repurchasePayloads grants) : p.issue = issueRepurchase := by
  rcases List.mem_filterMap.mp hp with ⟨r, _, hr⟩
  rcases hs : r.stockholder with _ | s <;> rcases hn : r.shares_repurchased with _ | n <;>
    simp [hs, hn] at hr
  rcases hr with ⟨_, rfl⟩
  rfl

theorem mem_shareQtyChecks_issue {e : Entry} {m : Grant} {p : Payload}
    (hp : p ∈ shareQtyChecks e m) : p.issue = issueShareQty := by
  unfold shareQtyChecks at hp
  rcases h : m.shares with _ | n <;> simp [h] at hp
  rcases hp with ⟨_, rfl⟩
  rfl

theorem mem_priceChecks_issue {e : Entry} {m : Grant} {p : Payload}
    (hp : p ∈ priceChecks e m) : p.issue = issuePrice := by
  unfold priceChecks at hp
  rcases h : m.price_per_share with _ | q <;> simp [h] at hp
  rcases hp with ⟨_, rfl⟩
  rfl

theorem mem_dateChecks_issue {e : Entry} {m : Grant} {p : Payload}
    (hp : p ∈ dateChecks e m) : p.issue = issueDate := by
  unfold dateChecks at hp
  rcases h : m.date with _ | d <;> simp [h] at hp
  rcases hp with ⟨_, rfl⟩
  rfl

theorem mem_vestingChecks_issue {e : Entry} {m : Grant} {p : Payload}
    (hp : p ∈ vestingChecks e m) : p.issue = issueVesting := by
  unfold vestingChecks at hp
  rcases h : m.vesting_schedule with _ | v <;> simp [h] at hp
  rcases hp with ⟨_, rfl⟩
  rfl

theorem shareQtyChecks_issue_mem_iff (e : Entry) (m : Grant) :
    issueShareQty ∈ (shareQtyChecks e m).map Payload.issue ↔
      ∃ n, m.shares = some n ∧ n ≠ 0 ∧ 1 < (safe_int e.quantityIssued - n).natAbs := by
  unfold shareQtyChecks
  rcases h : m.shares with _ | n <;> simp [h]
  constructor
  · rintro ⟨a, ⟨hc, rfl⟩, _⟩
    exact hc
  · intro hc
    exact ⟨_, ⟨hc, rfl⟩, rfl⟩

theorem priceChecks_issue_mem_iff (e : Entry) (m : Grant) :
    issuePrice ∈ (priceChecks e m).map Payload.issue ↔
      ∃ p, m.price_per_share = some p ∧ p.num ≠ 0
        ∧ hundredth.blt (((entryPricePerShare e).sub p).fabs) = true := by
  unfold priceChecks
  rcases h : m.price_per_share with _ | q <;> simp [h]
  constructor
  · rintro ⟨a, ⟨hc, rfl⟩, _⟩
    exact hc
  · intro hc
    exact ⟨_, ⟨hc, rfl⟩, rfl⟩

theorem issue_eq_of_mem_map {ps : List Payload} {c i : String}
    (hall : ∀ p ∈ ps, p.issue = c) (hi : i ∈ ps.map Payload.issue) : i = c := by
  rcases List.mem_map.mp hi with ⟨p, hp, rfl⟩
  exact hall p hp

theorem inLookup_true_elim {grants : List Grant} {cv : CellValue}
    (h : inLookup grants cv = true) :
    ∃ s, cv = CellValue.str s ∧ (s != "" && !(grantsFor grants s).isEmpty) = true := by
  cases cv with
  | str s => exact ⟨s, rfl, h⟩
  | num q => simp [inLookup] at h
  | na => simp [inLookup] at h

theorem entryPayloads_of_inLookup {grants : List Grant} {e : Entry} {s : String}
    (hname : e.stakeholderName = CellValue.str s)
    (hin : inLookup grants e.stakeholderName = true) :
    entryPayloads grants e
      = (matchedGrant (grantsFor grants s) (safe_int e.quantityIssued)).map (fun m =>
          shareQtyChecks e m ++ priceChecks e m ++ dateChecks e m ++ vestingChecks e m) := by
  rw [hname] at hin
  simp only [inLookup] at hin
  unfold entryPayloads
  rw [hname]
  exact if_pos hin

theorem entryPayloads_of_not_inLookup {grants : List Grant} {e : Entry}
    (hin : inLookup grants e.stakeholderName = false) :
    entryPayloads grants e = Except.ok [phantomPayload e] := by
  unfold entryPayloads
  cases hname : e.stakeholderName with
  | str s =>
    rw [hname] at hin
    simp only [inLookup] at hin
    exact if_neg (by simp [hin])
  | num q => rfl
  | na => rfl

theorem run_singleton_issues {grants : List Grant} {e : Entry} {s : String} {m : Grant}
    {ds : List Disc}
    (hname : e.stakeholderName = CellValue.str s)
    (hin : inLookup grants e.stakeholderName = true)
    (hm : matchedGrant (grantsFor grants s) (safe_int e.quantityIssued) = Except.ok m)
    (hds : run_deterministic_analysis [e] grants = Except.ok ds) :
    ds.map Disc.issue
      = (shareQtyChecks e m ++ priceChecks e m ++ dateChecks e m ++ vestingChecks e m).map
          Payload.issue ++ (repurchasePayloads grants).map Payload.issue := by
  rw [run_eq_map, processEntries_singleton, entryPayloads_of_inLookup hname hin, hm] at hds
  simp only [Except.map, Except.ok.injEq] at hds
  subst hds
  rw [appendNumbered_map_issue, appendNumbered_map_issue]
  simp

theorem run_singleton_phantom_issues {grants : List Grant} {e : Entry} {ds : List Disc}
    (hin : inLookup grants e.stakeholderName = false)
    (hds : run_deterministic_analysis [e] grants = Except.ok ds) :
    ds.map Disc.issue = issuePhantom :: (repurchasePayloads grants).map Payload.issue := by
  rw [run_eq_map, processEntries_singleton, entryPayloads_of_not_inLookup hin] at hds
  simp only [Except.map, Except.ok.injEq] at hds
  subst hds
  rw [appendNumbered_map_issue, appendNumbered_map_issue]
  rfl

/-- `run_deterministic_analysis [e] grants` succeeding with the entry in the
lookup forces the matching step to have succeeded. -/
theorem matched_of_run_ok {grants : List Grant} {e : Entry} {s : String} {ds : List Disc}
    (hname : e.stakeholderName = CellValue.str s)
    (hin : inLookup grants e.stakeholderName = true)
    (hds : run_deterministic_analysis [e] grants = Except.ok ds) :
    ∃ m, matchedGrant (grantsFor grants s) (safe_int e.quantityIssued) = Except.ok m := by
  rw [run_eq_map, processEntries_singleton, entryPayloads_of_inLookup hname hin] at hds
  cases hm : matchedGrant (grantsFor grants s) (safe_int e.quantityIssued) with
  | error msg => rw [hm] at hds; simp [Except.map] at hds
  | ok m => exact ⟨m, rfl⟩

/-- Claim C1.  For a cap-table entry whose stakeholder is a key of the
board-grant lookup (so the entry is matched rather than flagged as phantom),
`run_deterministic_analysis` emits an `'Incorrect Share Quantity'`
discrepancy if and only if the matched grant's share count is present and
non-zero and the absolute difference between `safe_int` of the entry's
`'Quantity Issued'` and that share count exceeds 1 — the fixed tolerance of
1, inside the spec's stated range of 1 to 5. -/
theorem claim_C1_share_quantity_tolerance (grants : List Grant) (e : Entry) (s : String)
    (m : Grant) (ds : List Disc)
    (hname : e.stakeholderName = CellValue.str s)
    (hin : inLookup grants e.stakeholderName = true)
    (hm : matchedGrantOf grants e = Except.ok m)
    (hds : run_deterministic_analysis [e] grants = Except.ok ds) :
    (∃ d ∈ ds, d.issue = issueShareQty) ↔
      ∃ n, m.shares = some n ∧ n ≠ 0 ∧ 1 < (safe_int e.quantityIssued - n).natAbs := by
  have hm' : matchedGrant (grantsFor grants s) (safe_int e.quantityIssued) = Except.ok m := by
    unfold matchedGrantOf at hm
    rw [hname] at hm
    exact hm
  rw [exists_issue_iff_mem_map, run_singleton_issues hname hin hm' hds]
  have h2 : issueShareQty ∉ (priceChecks e m).map Payload.issue := fun h =>
    absurd (issue_eq_of_mem_map (fun p hp => mem_priceChecks_issue hp) h) (by decide)
  have h3 : issueShareQty ∉ (dateChecks e m).map Payload.issue := fun h =>
    absurd (issue_eq_of_mem_map (fun p hp => mem_dateChecks_issue hp) h) (by decide)
  have h4 : issueShareQty ∉ (vestingChecks e m).map Payload.issue := fun h =>
    absurd (issue_eq_of_mem_map (fun p hp => mem_vestingChecks_issue hp) h) (by decide)
  have h5 : issueShareQty ∉ (repurchasePayloads grants).map Payload.issue := fun h =>
    absurd (issue_eq_of_mem_map (fun p hp => mem_repurchasePayloads_issue hp) h) (by decide)
  have h1 := shareQtyChecks_issue_mem_iff e m
  simp only [List.map_append, List.mem_append]
  simp [h1, h2, h3, h4, h5]

/-- Claim C3.  For a cap-table entry matched to a board grant carrying a
non-zero price per share, `run_deterministic_analysis` emits an
`'Incorrect Price Per Share'` discrepancy if and only if the absolute
difference between the entry's computed price per share (`Cost Basis`
divided by `Quantity Issued`, `0` when the share count is not positive) and
the grant's price exceeds `0.01` — the fixed tolerance inside the spec's
stated range of $0.01 to $0.10.  Python float arithmetic is idealised as
exact rational arithmetic. -/
theorem claim_C3_price_tolerance (grants : List Grant) (e : Entry) (s : String)
    (m : Grant) (p : Frac) (ds : List Disc)
    (hname : e.stakeholderName = CellValue.str s)
    (hin : inLookup grants e.stakeholderName = true)
    (hm : matchedGrantOf grants e = Except.ok m)
    (hp : m.price_per_share = some p) (hp0 : p.num ≠ 0)
    (hds : run_deterministic_analysis [e] grants = Except.ok ds) :
    (∃ d ∈ ds, d.issue = issuePrice) ↔
      hundredth.blt (((entryPricePerShare e).sub p).fabs) = true := by
  have hm' : matchedGrant (grantsFor grants s) (safe_int e.quantityIssued) = Except.ok m := by
    unfold matchedGrantOf at hm
    rw [hname] at hm
    exact hm
  rw [exists_issue_iff_mem_map, run_singleton_issues hname hin hm' hds]
  have h2 : issuePrice ∉ (shareQtyChecks e m).map Payload.issue := fun h =>
    absurd (issue_eq_of_mem_map (fun q hq => mem_shareQtyChecks_issue hq) h) (by decide)
  have h3 : issuePrice ∉ (dateChecks e m).map Payload.issue := fun h =>
    absurd (issue_eq_of_mem_map (fun q hq => mem_dateChecks_issue hq) h) (by decide)
  have h4 : issuePrice ∉ (vestingChecks e m).map Payload.issue := fun h =>
    absurd (issue_eq_of_mem_map (fun q hq => mem_vestingChecks_issue hq) h) (by decide)
  have h5 : issuePrice ∉ (repurchasePayloads grants).map Payload.issue := fun h =>
    absurd (issue_eq_of_mem_map (fun q hq => mem_repurchasePayloads_issue hq) h) (by decide)
  have h1 : issuePrice ∈ (priceChecks e m).map Payload.issue ↔
      hundredth.blt (((entryPricePerShare e).sub p).fabs) = true := by
    rw [priceChecks_issue_mem_iff, hp]
    simp [hp0]
  simp only [List.map_append, List.mem_append]
  simp [h1, h2, h3, h4, h5]

/-- Modelled from the spec and claim C2's wording: the entry's
`'Stakeholder Name'` "appears as the stockholder of some extracted
non-repurchase board grant", with no further condition.  Kept separate from
the implementation's `inLookup` for the refinement comparison. -/
def specCorrespondence (grants : List Grant) : CellValue → Bool
  | CellValue.str s => grants.any (fun g => g.type != repurchaseType && g.stockholder == some s)
  | _ => false

def cxGrant : Grant :=
  { type := "RSA Grant", filename := "consent_blank.docx",
    stockholder := some "", shares := some 500 }

def cxEntry : Entry :=
  { securityID := CellValue.str "RSA-9", stakeholderName := CellValue.str "",
    quantityIssued := CellValue.num (Frac.ofInt 500) }

/-- Counterexample to claim C2 as stated: the entry's stakeholder name `''`
does appear as the stockholder of a non-repurchase board grant
(`cxGrant.stockholder = some ''`), yet `run_deterministic_analysis` still
emits a `'Phantom Equity Entry'` discrepancy for the entry, because the
lookup only admits truthy (non-empty) stockholder names. -/
theorem claim_C2_counterexample :
    specCorrespondence [cxGrant] cxEntry.stakeholderName = true
      ∧ (run_deterministic_analysis [cxEntry] [cxGrant]).map (List.map Disc.issue)
          = Except.ok [issuePhantom] :=
  ⟨rfl, rfl⟩

/-- Claim C2 (amended).  For every cap-table entry,
`run_deterministic_analysis` emits a `'Phantom Equity Entry'` discrepancy
if and only if the entry has no corresponding approving legal document,
where correspondence requires the entry's `'Stakeholder Name'` to be a
non-empty string appearing as the stockholder of some extracted
non-repurchase board grant (`inLookup`); and when the phantom discrepancy
is emitted, the entry is skipped for all further per-entry checks — the
run contributes no discrepancy besides the phantom one and the
entry-independent repurchase ones. -/
theorem claim_C2_phantom_iff (grants : List Grant) (e : Entry) (ds : List Disc)
    (hds : run_deterministic_analysis [e] grants = Except.ok ds) :
    ((∃ d ∈ ds, d.issue = issuePhantom) ↔ inLookup grants e.stakeholderName = false)
    ∧ (inLookup grants e.stakeholderName = false →
        ∀ d ∈ ds, d.issue = issuePhantom ∨ d.issue = issueRepurchase) := by
  cases hin : inLookup grants e.stakeholderName with
  | false =>
    have hiss := run_singleton_phantom_issues hin hds
    constructor
    · rw [exists_issue_iff_mem_map, hiss]
      simp
    · intro _ d hd
      have hmem : d.issue ∈ ds.map Disc.issue := List.mem_map.mpr ⟨d, hd, rfl⟩
      rw [hiss] at hmem
      rcases List.mem_cons.mp hmem with h | h
      · exact Or.inl h
      · exact Or.inr (issue_eq_of_mem_map (fun p hp => mem_repurchasePayloads_issue hp) h)
  | true =>
    rcases inLookup_true_elim hin with ⟨s, hname, _⟩
    rcases matched_of_run_ok hname hin hds with ⟨m, hm⟩
    have hiss := run_singleton_issues hname hin hm hds
    have n1 : issuePhantom ∉ (shareQtyChecks e m).map Payload.issue := fun h =>
      absurd (issue_eq_of_mem_map (fun p hp => mem_shareQtyChecks_issue hp) h) (by decide)
    have n2 : issuePhantom ∉ (priceChecks e m).map Payload.issue := fun h =>
      absurd (issue_eq_of_mem_map (fun p hp => mem_priceChecks_issue hp) h) (by decide)
    have n3 : issuePhantom ∉ (dateChecks e m).map Payload.issue := fun h =>
      absurd (issue_eq_of_mem_map (fun p hp => mem_dateChecks_issue hp) h) (by decide)
    have n4 : issuePhantom ∉ (vestingChecks e m).map Payload.issue := fun h =>
      absurd (issue_eq_of_mem_map (fun p hp => mem_vestingChecks_issue hp) h) (by decide)
    have n5 : issuePhantom ∉ (repurchasePayloads grants).map Payload.issue := fun h =>
      absurd (issue_eq_of_mem_map (fun p hp => mem_repurchasePayloads_issue hp) h) (by decide)
    constructor
    · rw [exists_issue_iff_mem_map, hiss]
      simp only [List.map_append, List.mem_append]
      constructor
      · intro hex
        tauto
      · intro h
        cases h
    · intro h
      cases h

/-- Claim C8.  Every repurchase grant with a non-empty stockholder and a
non-zero `shares_repurchased` yields a `'Missing Repurchase Transaction'`
discrepancy in every successful run, for every cap-table entry list —
including ones that do reflect the repurchase.  The cap-table entries are
never consulted by Check 6. -/
theorem claim_C8_repurchase_unconditional (entries : List Entry) (grants : List Grant)
    (r : Grant) (s : String) (n : Int) (ds : List Disc)
    (hr : r ∈ grants) (ht : r.type = repurchaseType)
    (hs : r.stockholder = some s) (hs0 : s ≠ "")
    (hn : r.shares_repurchased = some n) (hn0 : n ≠ 0)
    (hds : run_deterministic_analysis entries grants = Except.ok ds) :
    ∃ d ∈ ds, d.issue = issueRepurchase ∧ d.stockholder = CellValue.str s
      ∧ d.source = r.filename := by
  have hrep : r ∈ repurchasesOf grants := List.mem_filter.mpr ⟨hr, by simp [ht]⟩
  have hp : repurchasePayloadFor r s n ∈ repurchasePayloads grants := by
    apply List.mem_filterMap.mpr
    refine ⟨r, hrep, ?_⟩
    rw [hs, hn]
    exact if_pos ⟨hs0, hn0⟩
  rw [run_eq_map] at hds
  cases hbase : processEntries grants entries [] with
  | error msg =>
    rw [hbase] at hds
    simp [Except.map] at hds
  | ok base =>
    rw [hbase] at hds
    simp only [Except.map, Except.ok.injEq] at hds
    subst hds
    rcases exists_mem_appendNumbered hp base with ⟨d, hd, hdp⟩
    exact ⟨d, hd, congrArg Payload.issue hdp, congrArg Payload.stockholder hdp,
      congrArg Payload.source hdp⟩

/-- Claim C9.  `run_deterministic_analysis` is deterministic: equal inputs
give identical discrepancy lists.  The source function reads nothing
besides its arguments (and the pure helpers `safe_int` / `safe_float`), so
its embedding is a pure function of the two lists. -/
theorem claim_C9_deterministic (es₁ es₂ : List Entry) (gs₁ gs₂ : List Grant)
    (he : es₁ = es₂) (hg : gs₁ = gs₂) :
    run_deterministic_analysis es₁ gs₁ = run_deterministic_analysis es₂ gs₂ := by
  rw [he, hg]

def wellNumbered (ds : List Disc) : Prop :=
  ∀ i : Fin ds.length, (ds.get i).number = i.val + 1

theorem wellNumbered_nil : wellNumbered [] := by
  intro i
  exact absurd i.isLt (by simp)

theorem wellNumbered_append_one {acc : List Disc} {p : Payload}
    (h : wellNumbered acc) :
    wellNumbered (acc ++ [p.numbered (acc.length + 1)]) := by
  rintro ⟨i, hi⟩
  rw [List.get_eq_getElem]
  by_cases hlt : i < acc.length
  · rw [List.getElem_append_left hlt]
    have hacc := h ⟨i, hlt⟩
    rw [List.get_eq_getElem] at hacc
    exact hacc
  · have hle : acc.length ≤ i := Nat.le_of_not_lt hlt
    have hieq : i = acc.length := by
      have hlen : i < acc.length + 1 := by simpa using hi
      omega
    subst hieq
    rw [List.getElem_append_right hle]
    simp

theorem wellNumbered_appendNumbered (ps : List Payload) {acc : List Disc}
    (h : wellNumbered acc) : wellNumbered (appendNumbered acc ps) := by
  induction ps generalizing acc with
  | nil => exact h
  | cons p ps ih =>
    rw [appendNumbered_cons]
    exact ih (wellNumbered_append_one h)

theorem processEntries_wellNumbered {grants : List Grant} {es : List Entry}
    {acc ds : List Disc} (hrun : processEntries grants es acc = Except.ok ds)
    (h : wellNumbered acc) : wellNumbered ds := by
  induction es generalizing acc with
  | nil =>
    simp only [processEntries, Except.ok.injEq] at hrun
    subst hrun
    exact h
  | cons e rest ih =>
    unfold processEntries at hrun
    cases hp : entryPayloads grants e with
    | error msg =>
      rw [hp] at hrun
      simp [Bind.bind, Except.bind] at hrun
    | ok ps =>
      rw [hp] at hrun
      simp only [Bind.bind, Except.bind] at hrun
      exact ih hrun (wellNumbered_appendNumbered ps h)

/-- Claim C10.  In every discrepancy list a successful run returns, the
`number` field of the `i`-th discrepancy (counting from 1) is `i`: each
append sets `number` to `len(discrepancies) + 1`, so numbers are
consecutive, start at 1, and match list position. -/
theorem claim_C10_numbering (entries : List Entry) (grants : List Grant) (ds : List Disc)
    (hds : run_deterministic_analysis entries grants = Except.ok ds) :
    ∀ i : Fin ds.length, (ds.get i).number = i.val + 1 := by
  rw [run_eq_map] at hds
  cases hbase : processEntries grants entries [] with
  | error msg =>
    rw [hbase] at hds
    simp [Except.map] at hds
  | ok base =>
    rw [hbase] at hds
    simp only [Except.map, Except.ok.injEq] at hds
    subst hds
    exact wellNumbered_appendNumbered _ (processEntries_wellNumbered hbase wellNumbered_nil)

def newline : String := "\n"

/-- One uploaded board document: its file name and the outcome of decoding
its bytes with python-docx (`ok` the paragraph texts, `error` the raised
exception's message). -/
structure BoardFile where
  name : String
  decoded : Except String (List String)

/-- `DeterministicCapTableAnalyzer.read_docx_content`
(src/main.py lines 25-35): join the document's paragraph texts with
newlines; any exception raised while decoding is caught (after an inline UI
error message) and the function returns `''`. -/
def read_docx_content (decoded : Except String (List String)) : String :=
  match decoded with
  | Except.ok paras => String.intercalate newline paras
  | Except.error _ => ""

/-- The board-document loop of `main` (src/main.py lines 593-599): files
sorted by name, each decoded with `read_docx_content` and stored under its
name. -/
def processBoardFiles (files : List BoardFile) : List (String × String) :=
  (files.mergeSort (fun a b => decide (a.name ≤ b.name))).map
    (fun f => (f.name, read_docx_content f.decoded))

/-- Claim C5.  A board-document read failure yields the empty string rather
than a propagated exception, and the surrounding loop still processes every
uploaded file: the failed file contributes `''` and no file is dropped. -/
theorem claim_C5_docx_error_skip (files : List BoardFile) (f : BoardFile) (msg : String)
    (hf : f ∈ files) (he : f.decoded = Except.error msg) :
    read_docx_content f.decoded = ""
    ∧ (f.name, "") ∈ processBoardFiles files
    ∧ (processBoardFiles files).length = files.length := by
  refine ⟨by rw [he]; rfl, ?_, by simp [processBoardFiles, List.length_mergeSort]⟩
  have hf' : f ∈ files.mergeSort (fun a b => decide (a.name ≤ b.name)) :=
    List.mem_mergeSort.mpr hf
  exact List.mem_map.mpr ⟨f, hf', by rw [he]; rfl⟩

def apiModelName : String := "claude-3-5-sonnet-20241022"

def apiSystemPrompt : String :=
  "You are a systematic legal auditor. Always follow the exact same analysis sequence and format. Be consistent and thorough in your approach."

def promptHeader : String :=
  "You are a lawyer conducting a standardized capitalization table tie out. You MUST follow this exact sequence:\n\nMANDATORY ANALYSIS SEQUENCE:\n1. DOCUMENT INVENTORY: List every board document and what it approves\n2. CAP TABLE INVENTORY: List every cap table entry (Security ID, Stockholder, Shares)\n3. SYSTEMATIC COMPARISON: For each cap table entry, check against board docs\n4. DISCREPANCY IDENTIFICATION: List each discrepancy separately with exact format\n\nSTEP 1 - DOCUMENT INVENTORY:\nFirst, create a complete list of all board-approved grants from legal documents:\n- Document name, date, stockholder, shares, price, vesting details\n\nSTEP 2 - CAP TABLE INVENTORY: \nList every entry in the cap table:\n- Security ID, Stockholder Name, Quantity, Price details, Dates\n\nSTEP 3 - SYSTEMATIC COMPARISON:\nFor EACH cap table entry, verify these 7 items in order:\na) Does this entry have board approval? (if no = PHANTOM EQUITY)\nb) Do share quantities match?\nc) Do prices match?\nd) Do board approval dates match?\ne) Do issue dates match?\nf) Do vesting schedules match (monthly vs annual)?\ng) Are repurchases reflected?\n\nSTEP 4 - DISCREPANCY LIST:\nUse this EXACT format for each discrepancy:\n\nDISCREPANCY #[X]: [Issue Title]\n- Severity: HIGH/MEDIUM/LOW\n- Stockholder: [Name]\n- Security ID: [ID]\n- Cap Table Shows: [Value]\n- Legal Documents Show: [Value]\n- Source Document: [Filename]\n- Description: [1-2 sentences]\n\nCRITICAL REQUIREMENTS:\n- Analyze every single cap table entry\n- Check for phantom equity (entries without board approval)\n- Verify vesting schedule language matches exactly\n- Check for missing repurchase transactions\n- List each discrepancy separately (don't group)\n- Use consistent severity: HIGH=material issues, MEDIUM=dates/documentation, LOW=minor\n\nHere are the documents to analyze:\n\nBOARD DOCUMENTS:\n"

def promptFooter : String :=
  "\n\nNOW EXECUTE THE 4-STEP ANALYSIS SEQUENCE ABOVE.\n\nBegin with: \"STEP 1 - DOCUMENT INVENTORY:\" and follow the exact sequence."

/-- `create_analysis_prompt` (src/main.py lines 397-463): the fixed
template, one section per board document in order, the cap-table text, and
the fixed footer. -/
def create_analysis_prompt (board_docs : List (String × String))
    (cap_table_text : String) : String :=
  (board_docs.foldl
    (fun acc fc => acc ++ newline ++ "--- " ++ fc.1 ++ " ---" ++ newline ++ fc.2 ++ newline)
    promptHeader)
  ++ newline ++ "SECURITIES LEDGER / CAP TABLE:" ++ newline ++ cap_table_text ++ newline
  ++ promptFooter

/-- One outbound Anthropic messages-API request as
`self.client.messages.create` is invoked (src/main.py lines 471-482). -/
structure ApiRequest where
  model : String
  max_tokens : Nat
  temperature : Int
  system : String
  user_content : String
deriving DecidableEq

/-- The single request `analyze_with_llm` builds for a given input pair. -/
def analyze_with_llm_request (board_docs : List (String × String))
    (cap_table_text : String) : ApiRequest :=
  { model := apiModelName, max_tokens := 4000, temperature := 0,
    system := apiSystemPrompt,
    user_content := create_analysis_prompt board_docs cap_table_text }

/-- All outbound requests one `analyze_with_llm` call issues: exactly one —
the `try` body contains a single `messages.create` and the `except` branch
returns without retrying (src/main.py lines 465-487). -/
def analyze_with_llm_requests (board_docs : List (String × String))
    (cap_table_text : String) : List ApiRequest :=
  [analyze_with_llm_request board_docs cap_table_text]

def llmErrorPrefix : String := "Error analyzing documents: "

/-- `analyze_with_llm` (src/main.py lines 465-487) as a function of the API
call's outcome (`ok` the reply text `response.content[0].text`, `error` the
raised exception's message): the reply text is returned verbatim; an
exception is caught and rendered as an error string. -/
def analyze_with_llm (board_docs : List (String × String)) (cap_table_text : String)
    (api_outcome : Except String String) : String :=
  match api_outcome with
  | Except.ok text => text
  | Except.error msg => llmErrorPrefix ++ msg

/-- Claim C6.  Every outbound request carries `temperature = 0` and
`max_tokens = 4000`, exactly one request is issued per call (no retry), and
an API failure is rendered as a string beginning with
`'Error analyzing documents: '`. -/
theorem claim_C6_api_params (board_docs : List (String × String))
    (cap_table_text msg : String) :
    analyze_with_llm_requests board_docs cap_table_text
        = [analyze_with_llm_request board_docs cap_table_text]
    ∧ (analyze_with_llm_request board_docs cap_table_text).temperature = 0
    ∧ (analyze_with_llm_request board_docs cap_table_text).max_tokens = 4000
    ∧ analyze_with_llm board_docs cap_table_text (Except.error msg)
        = llmErrorPrefix ++ msg :=
  ⟨rfl, rfl, rfl, rfl⟩

def emptyText : String := ""

def jsonLikeReply : String :=
  "STEP 1 - DOCUMENT INVENTORY: ... \x7b\"discrepancies\": [\x7b\"number\": 1\x7d]\x7d ..."

/-- Counterexample to claim C4 as stated: this revision contains no JSON
parsing at all (no `import json`, no brace counting anywhere in
src/main.py); the model reply returned by `analyze_with_llm` is the API
text verbatim, even when it contains a JSON object, and the structured
discrepancy records shown to the user come from
`run_deterministic_analysis`, not from the reply. -/
theorem claim_C4_counterexample :
    analyze_with_llm [] emptyText (Except.ok jsonLikeReply) = jsonLikeReply := rfl

/-- Claim C4 (amended).  `analyze_with_llm` returns the model reply
verbatim on success and an `'Error analyzing documents: '` string on
failure; no brace-counting JSON extractor processes the reply in this
revision. -/
theorem claim_C4_reply_verbatim (board_docs : List (String × String))
    (cap_table_text t msg : String) :
    analyze_with_llm board_docs cap_table_text (Except.ok t) = t
    ∧ analyze_with_llm board_docs cap_table_text (Except.error msg)
        = llmErrorPrefix ++ msg :=
  ⟨rfl, rfl⟩

/-- Modelled from the spec: "the row count after concatenation equals the
sum of input row counts — a property of the pandas concatenation used
internally".  No `pd.concat` call exists in this revision's src/main.py
(the spec describes the repository's other near-duplicate iterations), so
the pandas concatenation of well-formed sheets is modelled as the join of
their row lists. -/
def concat_tables (tables : List (List (List CellValue))) : List (List CellValue) :=
  tables.join

/-- Claim C7.  The row count after concatenation equals the sum of the
input row counts. -/
theorem claim_C7_concat_row_count (tables : List (List (List CellValue))) :
    (concat_tables tables).length = (tables.map List.length).sum := by
  simp [concat_tables]

def wGrantJohn : Grant :=
  { type := "RSA Grant", filename := "2023-01-15 - Consent - RSA.docx",
    stockholder := some "John Doe", shares := some 5000,
    price_per_share := some { num := 1, den := 2 },
    date := some "January 15, 2023",
    vesting_schedule := some "1/48th monthly" }

def wRepurchaseBob : Grant :=
  { type := "Repurchase", filename := "2024-03-01 - Repurchase.docx",
    stockholder := some "Bob", shares_repurchased := some 1000 }

def wGrants : List Grant := [wGrantJohn, wRepurchaseBob]

def wEntryJohn : Entry :=
  { securityID := CellValue.str "RSA-1", stakeholderName := CellValue.str "John Doe",
    quantityIssued := CellValue.num (Frac.ofInt 4000),
    costBasis := CellValue.num (Frac.ofInt 2400),
    boardApprovalDate := CellValue.str "January 15, 2023",
    vestingSchedule := CellValue.str "1/48th monthly" }

def wEntryGhost : Entry :=
  { securityID := CellValue.str "RSA-2", stakeholderName := CellValue.str "Ghost",
    quantityIssued := CellValue.num (Frac.ofInt 100) }

def wDiscs : List Disc :=
  match run_deterministic_analysis [wEntryJohn] wGrants with
  | Except.ok l => l
  | Except.error _ => []

def wDiscsGhost : List Disc :=
  match run_deterministic_analysis [wEntryGhost] wGrants with
  | Except.ok l => l
  | Except.error _ => []

def wMatched : Grant :=
  match matchedGrantOf wGrants wEntryJohn with
  | Except.ok m => m
  | Except.error _ => default

theorem claim_C1_witness :
    (∃ d ∈ wDiscs, d.issue = issueShareQty) ↔
      ∃ n, wMatched.shares = some n ∧ n ≠ 0
        ∧ 1 < (safe_int wEntryJohn.quantityIssued - n).natAbs :=
  claim_C1_share_quantity_tolerance wGrants wEntryJohn "John Doe" wMatched wDiscs
    rfl rfl rfl rfl

theorem claim_C2_witness :
    ((∃ d ∈ wDiscsGhost, d.issue = issuePhantom)
        ↔ inLookup wGrants wEntryGhost.stakeholderName = false)
    ∧ (inLookup wGrants wEntryGhost.stakeholderName = false →
        ∀ d ∈ wDiscsGhost, d.issue = issuePhantom ∨ d.issue = issueRepurchase) :=
  claim_C2_phantom_iff wGrants wEntryGhost wDiscsGhost rfl

theorem claim_C3_witness :
    (∃ d ∈ wDiscs, d.issue = issuePrice) ↔
      hundredth.blt (((entryPricePerShare wEntryJohn).sub { num := 1, den := 2 }).fabs)
        = true :=
  claim_C3_price_tolerance wGrants wEntryJohn "John Doe" wMatched { num := 1, den := 2 }
    wDiscs rfl rfl rfl rfl (by decide) rfl

def wErrMsg : String := "BadZipFile: File is not a zip file"

def wFileBad : BoardFile :=
  { name := "a_consent.docx", decoded := Except.error wErrMsg }

def wFileGood : BoardFile :=
  { name := "b_minutes.docx",
    decoded := Except.ok ["UNANIMOUS WRITTEN CONSENT", "Date: January 15, 2023"] }

def wFiles : List BoardFile := [wFileBad, wFileGood]

theorem claim_C5_witness :
    read_docx_content wFileBad.decoded = ""
    ∧ (wFileBad.name, "") ∈ processBoardFiles wFiles
    ∧ (processBoardFiles wFiles).length = wFiles.length :=
  claim_C5_docx_error_skip wFiles wFileBad wErrMsg (List.mem_cons_self _ _) rfl

theorem claim_C8_witness :
    ∃ d ∈ wDiscs, d.issue = issueRepurchase ∧ d.stockholder = CellValue.str "Bob"
      ∧ d.source = wRepurchaseBob.filename :=
  claim_C8_repurchase_unconditional [wEntryJohn] wGrants wRepurchaseBob "Bob" 1000 wDiscs
    (List.mem_cons_of_mem _ (List.mem_cons_self _ _)) rfl rfl (by decide) rfl (by decide) rfl

theorem claim_C9_witness :
    run_deterministic_analysis [wEntryJohn] wGrants
      = run_deterministic_analysis [wEntryJohn] wGrants :=
  claim_C9_deterministic [wEntryJohn] [wEntryJohn] wGrants wGrants rfl rfl

theorem claim_C10_witness :
    (wDiscs.get ⟨0, by decide⟩).number = 1 :=
  claim_C10_numbering [wEntryJohn] wGrants wDiscs rfl ⟨0, by decide⟩

end CapTableApp
